import Mathlib

/-!
Verification of the streaming, buffered, resumable cloud uploader in
`internal/pdcp/writer.go` (package `pdcp`).

The embedding follows the source file closely:

* A `Line` models one newline-terminated record string returned by
  `reader.ReadString('\n')`.  The Go code inspects nothing of a record
  except its byte length (`len(line)`), and the buffer is the in-order
  concatenation of the appended records, so a record is embedded as an
  opaque tag together with its byte length, and the `bytes.Buffer` as the
  list of records appended since the last reset.
* The network and the external JSON decoder are oracles: a `NetOutcome`
  records what `client.Do`, `io.ReadAll` and `json.Unmarshal` return for
  one request.  `upload`, `uploadChunk` and the `autoCommit` select loop
  are then pure functions of the state and these oracles.
* The `autoCommit` loop body (writer.go lines 126-161) becomes a `step`
  function over an `Event` (context cancellation, ticker tick, a record
  arriving on the channel, channel closed); `run` iterates it, stopping
  when the Go code would `return`.
-/

/-- A record: one newline-terminated string produced by
`reader.ReadString('\n')` in the collector goroutine (writer.go line 102).
Only its byte length `len` enters the scheduler's logic; `tag` stands for
its (otherwise unexamined) byte content, distinguishing records. -/
structure Line where
  tag : Nat
  len : Nat
  deriving DecidableEq, Repr

/-- Total byte length of a list of records: the value of `buff.Len()` when
the buffer holds exactly these records in order. -/
def linesLen (ls : List Line) : Nat :=
  (ls.map Line.len).sum

/-- Constant `uploadEndpoint` (writer.go line 26). -/
def uploadEndpoint : String := "/v1/scans/import"

/-- Constant `appendEndpoint` (writer.go line 27), a format string
`/v1/scans/%s/import`; embedded as the function applying
`fmt.Sprintf` to the scan id. -/
def appendEndpoint (scanID : String) : String :=
  "/v1/scans/" ++ scanID ++ "/import"

/-- Constant `MaxChunkSize` (writer.go line 29): 4 MB. -/
def MaxChunkSize : Nat := 1024 * 1024 * 4

/-- Credentials `pdcpauth.PDCPCredentials` as used by writer.go: the
`Server` base URL (line 66) and the `APIKey` header value (line 224). -/
structure PDCPCredentials where
  APIKey : String
  Server : String
  deriving DecidableEq, Repr

/-- Modelled from the spec: the expected success response is a JSON body
containing an identifier field (for example an id string); the
`uploadResponse` struct itself is declared outside the given sources, and
writer.go line 197 reads its `ID` field. -/
structure UploadResponse where
  ID : String
  deriving DecidableEq, Repr

/-- Outcome of `io.ReadAll(resp.Body)` (writer.go line 186). -/
inductive ReadOutcome where
  | failure (e : String)
  | success (bin : String)
  deriving DecidableEq, Repr

/-- Oracle for one network round trip in `upload` (writer.go lines
181-196): either `client.Do` fails, or a response arrives with a status
code, a request URL, the outcome of reading the body, and what the
external `json.Unmarshal` yields on the read body (`none` when the body
is malformed for the `uploadResponse` shape). -/
inductive NetOutcome where
  | doError (e : String)
  | response (status : Nat) (url : String) (body : ReadOutcome)
      (parsed : Option UploadResponse)
  deriving DecidableEq, Repr

/-- Errors returned by `upload` (writer.go lines 176-201), one constructor
per `return ... err` site. -/
inductive UploadError where
  | networkError (e : String)
  | bodyReadError (e : String)
  | statusError (code : Nat) (url : String)
  | unmarshalError (raw : String)
  deriving DecidableEq, Repr

/-- Function `upload` (writer.go lines 176-201) given the network oracle.
It returns the new value of `u.scanID`: the Go method mutates the field
in place at lines 197-199; everything else is a direct transcription of
the error returns in source order (Do error, ReadAll error, status check,
Unmarshal, then the guarded id adoption). -/
def upload (scanID : String) (net : NetOutcome) : Except UploadError String :=
  match net with
  | .doError e => .error (.networkError e)
  | .response status url body parsed =>
    match body with
    | .failure e => .error (.bodyReadError e)
    | .success bin =>
      if status ≠ 200 then .error (.statusError status url)
      else
        match parsed with
        | none => .error (.unmarshalError bin)
        | some resp =>
          .ok (if resp.ID ≠ "" ∧ scanID = "" then resp.ID else scanID)

/-- Function `uploadChunk` (writer.go lines 165-174): upload the buffer's
bytes; only on success reset the buffer.  Returns the new buffer, the new
scan id, and the error if the upload failed (the Go code wraps it in a
`could not upload chunk` message and returns it). -/
def uploadChunk (buff : List Line) (scanID : String) (net : NetOutcome) :
    List Line × String × Option UploadError :=
  match upload scanID net with
  | .error e => (buff, scanID, some e)
  | .ok newID => ([], newID, none)

/-- State of the `autoCommit` loop (writer.go lines 122-161): the
temporary buffer `buff`, the current `u.scanID`, the record counter
`u.counter` (incremented by the collector goroutine once per record it
forwards, line 106), and — as the observable history — the list of
request bodies handed to `uploadChunk` so far. -/
structure LoopState where
  buff : List Line
  scanID : String
  counter : Nat
  sent : List (List Line)
  deriving DecidableEq, Repr

/-- One arrival at the `select` of the `autoCommit` loop (writer.go lines
126-161): context cancellation, a ticker tick, a record delivered on the
channel, or the channel found closed.  Each event carries the network
oracle consumed if the branch flushes. -/
inductive Event where
  | ctxDone (net : NetOutcome)
  | tick (net : NetOutcome)
  | record (line : Line) (net : NetOutcome)
  | chClosed (net : NetOutcome)
  deriving DecidableEq, Repr

/-- The network oracle carried by an event. -/
def Event.net : Event → NetOutcome
  | .ctxDone n => n
  | .tick n => n
  | .record _ n => n
  | .chClosed n => n

/-- One call `u.uploadChunk(buff)` from inside the loop: the current
buffer bytes are sent as the request body (recorded in `sent`), and the
buffer and scan id are updated as `uploadChunk` dictates; the returned
error is only logged (writer.go lines 131-132, 139-140, 146-147,
154-155). -/
def doUploadChunk (s : LoopState) (net : NetOutcome) : LoopState :=
  match uploadChunk s.buff s.scanID net with
  | (b, id, _) =>
    { buff := b, scanID := id, counter := s.counter, sent := s.sent ++ [s.buff] }

/-- One iteration of the `for { select { ... } }` loop of `autoCommit`
(writer.go lines 126-161).  Returns the new state and whether the loop
`return`s.  The four cases transcribe the four `select` branches; in the
record branch the counter increment performed by the collector goroutine
before the channel send (line 106) is accounted to the delivery of the
record.  Note that in the size-overflow branch (lines 152-156) the Go
code only flushes: the incoming `line` is not written to the buffer. -/
def step (s : LoopState) (e : Event) : LoopState × Bool :=
  match e with
  | .ctxDone net =>
    (if linesLen s.buff > 0 then doUploadChunk s net else s, true)
  | .tick net =>
    (if linesLen s.buff > 0 then doUploadChunk s net else s, false)
  | .record line net =>
    if linesLen s.buff + line.len > MaxChunkSize then
      (doUploadChunk { s with counter := s.counter + 1 } net, false)
    else
      ({ s with counter := s.counter + 1, buff := s.buff ++ [line] }, false)
  | .chClosed net =>
    (if linesLen s.buff > 0 then doUploadChunk s net else s, true)

/-- Iterate `step` over a schedule of events, stopping when the loop
returns (context done or channel closed). -/
def run (s : LoopState) : List Event → LoopState
  | [] => s
  | e :: es =>
    match step s e with
    | (s2, stop) => if stop then s2 else run s2 es

/-- The loop's initial state (writer.go line 123): an empty buffer, no
uploads yet, counter zero; the scan id is whatever `u.scanID` holds when
the loop starts (the zero value, unless `SetScanID` ran first). -/
def initState (scanID : String) : LoopState :=
  { buff := [], scanID := scanID, counter := 0, sent := [] }

/-- The `UploadWriter` fields that the claims concern (writer.go lines
36-45): credentials and the mutable scan id. -/
structure UploadWriter where
  creds : PDCPCredentials
  scanID : String
  deriving DecidableEq, Repr

/-- Method `SetScanID` (writer.go lines 89-91): unconditionally assign
`u.scanID = id`. -/
def SetScanID (u : UploadWriter) (id : String) : UploadWriter :=
  { u with scanID := id }

/-- Modelled from the spec: the API-key credential header name supplied
by the external `pdcpauth` package (writer.go line 224 sets it to the
credentials' API key). -/
def ApiKeyHeaderName : String := "X-Api-Key"

/-- Modelled from the spec: the client identity/version metadata query
parameters attached to every request by the external
`updateutils.GetpdtmParams` (writer.go line 223), represented abstractly
as a function of the version string. -/
def GetpdtmParams (version : String) : String :=
  "client=nuclei&version=" ++ version

/-- Modelled from the spec: the externally supplied client version
`config.Version` (writer.go line 223). -/
def Version : String := "v3"

/-- An upload request as `getRequest` constructs it: HTTP method, full
URL (server plus path), raw query string, headers in the order they are
set, and the chunk body. -/
structure Request where
  method : String
  url : String
  rawQuery : String
  headers : List (String × String)
  body : List Line
  deriving DecidableEq, Repr

/-- Method `getRequest` (writer.go lines 206-228): choose method and
endpoint by whether a scan id is set (POST to the upload endpoint when
unset, PATCH to the append endpoint parameterized by the id when set),
then attach the pdtm query parameters and the three headers.  The URL is
the server base with the chosen path, as `u.uploadURL.String()` yields
after the path assignment. -/
def getRequest (u : UploadWriter) (bin : List Line) : Request :=
  if u.scanID = "" then
    { method := "POST"
      url := u.creds.Server ++ uploadEndpoint
      rawQuery := GetpdtmParams Version
      headers := [(ApiKeyHeaderName, u.creds.APIKey),
                  ("Content-Type", "application/octet-stream"),
                  ("Accept", "application/json")]
      body := bin }
  else
    { method := "PATCH"
      url := u.creds.Server ++ appendEndpoint u.scanID
      rawQuery := GetpdtmParams Version
      headers := [(ApiKeyHeaderName, u.creds.APIKey),
                  ("Content-Type", "application/octet-stream"),
                  ("Accept", "application/json")]
      body := bin }

/-- A network oracle for a fully successful round trip: status 200, a
readable body, and a decoded response carrying the given id. -/
def netOK (id : String) : NetOutcome :=
  .response 200 "https://cloud.projectdiscovery.io/v1/scans/import"
    (.success "{}") (some { ID := id })

/-- A network oracle for a transport-level failure of `client.Do`. -/
def netFail : NetOutcome := .doError "connection refused"

/-- Failure cases of `NewUploadWriter` (writer.go lines 48-69), one
constructor per `return nil, err` site. -/
inductive ConstructError where
  | noCredentials
  | outputWriterError
  | serverURLParseError
  deriving DecidableEq, Repr

/-- Oracle for the two external fallible steps of construction: whether
`output.NewWriter` fails (writer.go line 59) and whether
`urlutil.Parse(creds.Server)` fails (line 66). -/
structure ConstructEnv where
  newWriterFails : Bool
  parseServerFails : Bool
  deriving DecidableEq, Repr

/-- Function `NewUploadWriter` (writer.go lines 48-86): reject nil
credentials first, then perform the external construction steps; on
success the writer starts with the given credentials and the zero-value
scan id. -/
def NewUploadWriter (creds : Option PDCPCredentials) (env : ConstructEnv) :
    Except ConstructError UploadWriter :=
  match creds with
  | none => .error .noCredentials
  | some c =>
    if env.newWriterFails then .error .outputWriterError
    else if env.parseServerFails then .error .serverURLParseError
    else .ok { creds := c, scanID := "" }

/-!
## Helper lemmas shared by the claim theorems
-/

theorem linesLen_nil : linesLen [] = 0 := rfl

theorem linesLen_cons (l : Line) (ls : List Line) :
    linesLen (l :: ls) = l.len + linesLen ls := by
  simp [linesLen]

theorem linesLen_append (a b : List Line) :
    linesLen (a ++ b) = linesLen a + linesLen b := by
  simp [linesLen]

theorem doUploadChunk_of_error (s : LoopState) (net : NetOutcome)
    (e : UploadError) (h : upload s.scanID net = .error e) :
    doUploadChunk s net = { s with sent := s.sent ++ [s.buff] } := by
  simp [doUploadChunk, uploadChunk, h]

theorem doUploadChunk_of_ok (s : LoopState) (net : NetOutcome)
    (id : String) (h : upload s.scanID net = .ok id) :
    doUploadChunk s net =
      { buff := [], scanID := id, counter := s.counter,
        sent := s.sent ++ [s.buff] } := by
  simp [doUploadChunk, uploadChunk, h]

theorem doUploadChunk_buff_le (s : LoopState) (net : NetOutcome) :
    linesLen (doUploadChunk s net).buff ≤ linesLen s.buff := by
  cases h : upload s.scanID net with
  | error e => rw [doUploadChunk_of_error s net e h]
  | ok id => rw [doUploadChunk_of_ok s net id h]; simp [linesLen]

theorem upload_ok_scanID (scanID : String) (net : NetOutcome) (id : String)
    (h : upload scanID net = .ok id) :
    id = scanID ∨ (scanID = "" ∧ id ≠ "") := by
  cases net with
  | doError e => simp [upload] at h
  | response status url body parsed =>
    cases body with
    | failure e => simp [upload] at h
    | success bin =>
      by_cases hs : status = 200
      · subst hs
        cases parsed with
        | none => simp [upload] at h
        | some resp =>
          simp only [upload, ne_eq, not_true_eq_false, if_false] at h
          by_cases hid : resp.ID ≠ "" ∧ scanID = ""
          · rw [if_pos hid] at h
            injection h with h2
            right
            exact ⟨hid.2, h2 ▸ hid.1⟩
          · rw [if_neg hid] at h
            injection h with h2
            left
            exact h2.symm
      · simp [upload, hs] at h

theorem step_scanID (s : LoopState) (e : Event) :
    (step s e).1.scanID = s.scanID ∨
      (s.scanID = "" ∧ (step s e).1.scanID ≠ "" ∧
        upload s.scanID e.net = .ok ((step s e).1.scanID)) := by
  have flush : ∀ (t : LoopState) (net : NetOutcome), t.scanID = s.scanID →
      (doUploadChunk t net).scanID = s.scanID ∨
        (s.scanID = "" ∧ (doUploadChunk t net).scanID ≠ "" ∧
          upload s.scanID net = .ok ((doUploadChunk t net).scanID)) := by
    intro t net ht
    cases h : upload t.scanID net with
    | error e2 =>
      rw [doUploadChunk_of_error t net e2 h]
      exact Or.inl ht
    | ok id =>
      rw [doUploadChunk_of_ok t net id h]
      rcases upload_ok_scanID t.scanID net id h with h1 | ⟨h2, h3⟩
      · exact Or.inl (h1.trans ht)
      · exact Or.inr ⟨ht ▸ h2, h3, ht ▸ h⟩
  cases e with
  | ctxDone net =>
    simp only [step, Event.net]
    split
    · exact flush s net rfl
    · exact Or.inl rfl
  | tick net =>
    simp only [step, Event.net]
    split
    · exact flush s net rfl
    · exact Or.inl rfl
  | chClosed net =>
    simp only [step, Event.net]
    split
    · exact flush s net rfl
    · exact Or.inl rfl
  | record line net =>
    simp only [step, Event.net]
    split
    · exact flush { s with counter := s.counter + 1 } net rfl
    · exact Or.inl rfl

theorem step_scanID_of_ne (s : LoopState) (e : Event) (h : s.scanID ≠ "") :
    (step s e).1.scanID = s.scanID := by
  rcases step_scanID s e with h1 | ⟨h2, _⟩
  · exact h1
  · exact absurd h2 h

theorem run_scanID_of_ne (es : List Event) :
    ∀ s : LoopState, s.scanID ≠ "" → (run s es).scanID = s.scanID := by
  induction es with
  | nil => intro s _; rfl
  | cons e es ih =>
    intro s h
    have h2 : (step s e).1.scanID = s.scanID := step_scanID_of_ne s e h
    show (match step s e with
          | (s2, stop) => if stop then s2 else run s2 es).scanID = s.scanID
    rcases hstep : step s e with ⟨s2, stop⟩
    rw [hstep] at h2
    cases stop with
    | true => simpa using h2
    | false =>
      simp only [if_false, Bool.false_eq_true]
      rw [ih s2 (by rw [h2]; exact h)]
      exact h2

theorem step_buff_le (s : LoopState) (e : Event)
    (h : linesLen s.buff ≤ MaxChunkSize) :
    linesLen (step s e).1.buff ≤ MaxChunkSize := by
  cases e with
  | ctxDone net =>
    simp only [step]
    split
    · exact le_trans (doUploadChunk_buff_le s net) h
    · exact h
  | tick net =>
    simp only [step]
    split
    · exact le_trans (doUploadChunk_buff_le s net) h
    · exact h
  | chClosed net =>
    simp only [step]
    split
    · exact le_trans (doUploadChunk_buff_le s net) h
    · exact h
  | record line net =>
    simp only [step]
    split
    · exact le_trans (doUploadChunk_buff_le { s with counter := s.counter + 1 } net) h
    · rename_i hc
      rw [linesLen_append, linesLen_cons, linesLen_nil]
      omega

theorem run_buff_le (es : List Event) :
    ∀ s : LoopState, linesLen s.buff ≤ MaxChunkSize →
      linesLen (run s es).buff ≤ MaxChunkSize := by
  induction es with
  | nil => intro s h; exact h
  | cons e es ih =>
    intro s h
    have h2 : linesLen (step s e).1.buff ≤ MaxChunkSize := step_buff_le s e h
    show linesLen (match step s e with
          | (s2, stop) => if stop then s2 else run s2 es).buff ≤ MaxChunkSize
    rcases hstep : step s e with ⟨s2, stop⟩
    rw [hstep] at h2
    cases stop with
    | true => simpa using h2
    | false =>
      simp only [if_false, Bool.false_eq_true]
      exact ih s2 h2

theorem run_records_append (n : NetOutcome) (es : List Event) (rs : List Line) :
    ∀ (b : List Line) (id : String) (cnt : Nat) (sent : List (List Line)),
      linesLen b + linesLen rs ≤ MaxChunkSize →
      run { buff := b, scanID := id, counter := cnt, sent := sent }
          (rs.map (fun r => Event.record r n) ++ es)
        = run { buff := b ++ rs, scanID := id, counter := cnt + rs.length,
                sent := sent } es := by
  induction rs with
  | nil => intro b id cnt sent _; simp
  | cons r rs ih =>
    intro b id cnt sent h
    rw [linesLen_cons] at h
    have hc : ¬ (linesLen b + r.len > MaxChunkSize) := by omega
    show run _ (Event.record r n :: (rs.map (fun r => Event.record r n) ++ es)) = _
    rw [run]
    simp only [step, hc, if_neg, if_false]
    rw [ih (b ++ [r]) id (cnt + 1) sent
      (by rw [linesLen_append, linesLen_cons, linesLen_nil]; omega)]
    simp only [List.append_assoc, List.singleton_append, List.length_cons]
    rw [Nat.add_comm rs.length 1, ← Nat.add_assoc]
    simp

theorem run_records (n : NetOutcome) (rs : List Line)
    (b : List Line) (id : String) (cnt : Nat) (sent : List (List Line))
    (h : linesLen b + linesLen rs ≤ MaxChunkSize) :
    run { buff := b, scanID := id, counter := cnt, sent := sent }
        (rs.map (fun r => Event.record r n))
      = { buff := b ++ rs, scanID := id, counter := cnt + rs.length,
          sent := sent } := by
  have := run_records_append n [] rs b id cnt sent h
  rw [List.append_nil] at this
  rw [this]
  rfl

/-!
## Claim theorems
-/

/-- C1: The claim states that when an incoming record would push the
buffer past `MaxChunkSize`, the existing buffer is flushed without the
new record and the new record is then accepted into the buffer.  The
overflow branch of the loop (writer.go lines 152-156) only flushes:
evaluated at a buffer holding one 4 MiB record, an incoming 1-byte
record and a succeeding upload, the flushed request body indeed excludes
the new record, but the new record also never reaches the buffer — it is
dropped, while the counter still counts it. -/
theorem C1_overflow_drops_incoming_record :
    step { buff := [{ tag := 0, len := MaxChunkSize }], scanID := "",
           counter := 1, sent := [] }
        (.record { tag := 1, len := 1 } (netOK "s1"))
      = ({ buff := [], scanID := "s1", counter := 2,
           sent := [[{ tag := 0, len := MaxChunkSize }]] }, false) ∧
    ({ tag := 1, len := 1 } : Line) ∉
      (step { buff := [{ tag := 0, len := MaxChunkSize }], scanID := "",
              counter := 1, sent := [] }
        (.record { tag := 1, len := 1 } (netOK "s1"))).1.buff ∧
    ∀ c : List Line,
      c ∈ (step { buff := [{ tag := 0, len := MaxChunkSize }], scanID := "",
                  counter := 1, sent := [] }
        (.record { tag := 1, len := 1 } (netOK "s1"))).1.sent →
      ({ tag := 1, len := 1 } : Line) ∉ c := by
  decide

/-- C2: The claim states that no record delivered by the stream is
silently dropped between the collector and the uploaded chunks.  In the
execution below, record 1 is read and counted (counter reaches 2), but
because it arrives while the buffer is full and the flush fails, the
overflow branch drops it: it occurs in no uploaded request body and not
in the final buffer, even though the stream produced it and a later
upload succeeds. -/
theorem C2_full_buffer_record_is_lost :
    run (initState "")
        [.record { tag := 0, len := MaxChunkSize } netFail,
         .record { tag := 1, len := 1 } netFail,
         .chClosed (netOK "s1")]
      = { buff := [], scanID := "s1", counter := 2,
          sent := [[{ tag := 0, len := MaxChunkSize }],
                   [{ tag := 0, len := MaxChunkSize }]] } ∧
    (∀ c : List Line,
      c ∈ (run (initState "")
        [.record { tag := 0, len := MaxChunkSize } netFail,
         .record { tag := 1, len := 1 } netFail,
         .chClosed (netOK "s1")]).sent →
      ({ tag := 1, len := 1 } : Line) ∉ c) ∧
    ({ tag := 1, len := 1 } : Line) ∉ (run (initState "")
        [.record { tag := 0, len := MaxChunkSize } netFail,
         .record { tag := 1, len := 1 } netFail,
         .chClosed (netOK "s1")]).buff := by
  decide

/-- C3 counterexample: the claim asserts an execution exists in which the
buffer grows past `MaxChunkSize` under sustained upload failures.  No
such execution exists: the buffer is only ever grown in the admission
branch, which is guarded by `buff.Len()+len(line) <= MaxChunkSize`, and a
flush (successful or not) never lengthens it, so from the empty initial
buffer every reachable buffer length stays at or below `MaxChunkSize`. -/
theorem C3_no_overgrown_buffer :
    (∃ (id : String) (es : List Event),
        MaxChunkSize < linesLen (run (initState id) es).buff) = False := by
  apply eq_false
  rintro ⟨id, es, hgt⟩
  have hle := run_buff_le es (initState id) (by simp [initState, linesLen])
  omega

/-- C3 (amended): in every execution of the scheduler loop the buffer
length stays at or below `MaxChunkSize`, even under sustained upload
failures: the size check gates admission, and the overflow branch drops
the incoming record instead of admitting it after the flush attempt, so
a retained failed chunk can never be grown past the limit. -/
theorem C3_buffer_always_bounded :
    ∀ (id : String) (es : List Event),
      linesLen (run (initState id) es).buff ≤ MaxChunkSize := by
  intro id es
  exact run_buff_le es (initState id) (by simp [initState, linesLen])

/-- C4: the buffer is reset exactly when the upload succeeds: a failed
flush leaves the buffer content unchanged, a successful flush empties
it, and after a failed flush followed by further admitted records a later
successful flush sends the original content plus the newly appended
records, in original order, leaving the buffer empty. -/
theorem C4_flush_resets_iff_success
    (buff : List Line) (scanID : String) (cnt : Nat) (sent : List (List Line))
    (netF netS : NetOutcome) (rs : List Line) (eF : UploadError) (newID : String)
    (hF : upload scanID netF = .error eF)
    (hS : upload scanID netS = .ok newID)
    (hne : 0 < linesLen buff)
    (hfit : linesLen buff + linesLen rs ≤ MaxChunkSize) :
    (doUploadChunk { buff := buff, scanID := scanID, counter := cnt,
                     sent := sent } netF).buff = buff ∧
    (doUploadChunk { buff := buff, scanID := scanID, counter := cnt,
                     sent := sent } netS).buff = [] ∧
    run { buff := buff, scanID := scanID, counter := cnt, sent := sent }
        (Event.tick netF ::
          (rs.map (fun r => Event.record r netF) ++ [Event.tick netS]))
      = { buff := [], scanID := newID, counter := cnt + rs.length,
          sent := sent ++ [buff, buff ++ rs] } := by
  refine ⟨?_, ?_, ?_⟩
  · rw [doUploadChunk_of_error _ netF eF hF]
  · rw [doUploadChunk_of_ok _ netS newID hS]
  · rw [run]
    have hstep : step { buff := buff, scanID := scanID, counter := cnt,
                        sent := sent } (Event.tick netF)
        = ({ buff := buff, scanID := scanID, counter := cnt,
             sent := sent ++ [buff] }, false) := by
      simp only [step, gt_iff_lt, hne, if_pos]
      rw [doUploadChunk_of_error _ netF eF hF]
    rw [hstep]
    simp only [Bool.false_eq_true, if_false]
    rw [run_records_append netF [Event.tick netS] rs buff scanID cnt
      (sent ++ [buff]) hfit]
    have hne2 : 0 < linesLen (buff ++ rs) := by
      rw [linesLen_append]; omega
    rw [run]
    have hstep2 : step { buff := buff ++ rs, scanID := scanID,
                         counter := cnt + rs.length, sent := sent ++ [buff] }
          (Event.tick netS)
        = ({ buff := [], scanID := newID, counter := cnt + rs.length,
             sent := (sent ++ [buff]) ++ [buff ++ rs] }, false) := by
      simp only [step, gt_iff_lt, hne2, if_pos]
      rw [doUploadChunk_of_ok _ netS newID hS]
    rw [hstep2]
    simp only [Bool.false_eq_true, if_false, run]
    simp [List.append_assoc]

/-- C4 witness: the scenario at a concrete input: one 3-byte record in
the buffer, a failed flush, one admitted 2-byte record, then a succeeding
flush. -/
theorem C4_witness :
    (doUploadChunk { buff := [{ tag := 0, len := 3 }], scanID := "",
                     counter := 0, sent := [] } netFail).buff
      = [{ tag := 0, len := 3 }] ∧
    (doUploadChunk { buff := [{ tag := 0, len := 3 }], scanID := "",
                     counter := 0, sent := [] } (netOK "s1")).buff = [] ∧
    run { buff := [{ tag := 0, len := 3 }], scanID := "", counter := 0,
          sent := [] }
        (Event.tick netFail ::
          ([{ tag := 1, len := 2 }].map (fun r => Event.record r netFail) ++
            [Event.tick (netOK "s1")]))
      = { buff := [], scanID := "s1",
          counter := 0 + [({ tag := 1, len := 2 } : Line)].length,
          sent := [] ++ [[{ tag := 0, len := 3 }],
                         [{ tag := 0, len := 3 }] ++ [{ tag := 1, len := 2 }]] } :=
  C4_flush_resets_iff_success [{ tag := 0, len := 3 }] "" 0 [] netFail
    (netOK "s1") [{ tag := 1, len := 2 }]
    (.networkError "connection refused") "s1"
    rfl rfl (by decide) (by decide)

/-- C5: the scan id changes in a loop iteration only when it was empty
before, the new value is non-empty, and it is exactly what the upload of
that iteration returned on success — and over any whole run, a scan id
that is already set never changes. -/
theorem C5_scan_id_adopted_at_most_once :
    (∀ (s : LoopState) (e : Event),
      (step s e).1.scanID = s.scanID ∨
        (s.scanID = "" ∧ (step s e).1.scanID ≠ "" ∧
          upload s.scanID e.net = .ok ((step s e).1.scanID))) ∧
    (∀ (s : LoopState) (es : List Event),
      s.scanID = "" ∨ (run s es).scanID = s.scanID) := by
  constructor
  · exact step_scanID
  · intro s es
    by_cases h : s.scanID = ""
    · exact Or.inl h
    · exact Or.inr (run_scanID_of_ne es s h)

/-- C6: before a scan id exists the request is a POST to the upload
endpoint; once one is set it is a PATCH to the append endpoint
parameterized by it; and every request carries the API-key header, the
octet-stream content type, the JSON accept header and the pdtm
client/version query parameters. -/
theorem C6_request_method_endpoint_headers (u : UploadWriter) (bin : List Line) :
    (u.scanID = "" →
      (getRequest u bin).method = "POST" ∧
      (getRequest u bin).url = u.creds.Server ++ uploadEndpoint) ∧
    (u.scanID ≠ "" →
      (getRequest u bin).method = "PATCH" ∧
      (getRequest u bin).url = u.creds.Server ++ appendEndpoint u.scanID) ∧
    (ApiKeyHeaderName, u.creds.APIKey) ∈ (getRequest u bin).headers ∧
    ("Content-Type", "application/octet-stream") ∈ (getRequest u bin).headers ∧
    ("Accept", "application/json") ∈ (getRequest u bin).headers ∧
    (getRequest u bin).rawQuery = GetpdtmParams Version := by
  by_cases h : u.scanID = ""
  · simp [getRequest, h]
  · simp [getRequest, h]

/-- C7: lazy batching: starting from the empty buffer, a sequence of
incoming records whose cumulative byte length stays at or below
`MaxChunkSize`, with no tick and no cancellation or stream-end event,
performs zero uploads — nothing is sent, and the buffer simply holds all
the records in order. -/
theorem C7_lazy_batching (rs : List Line) (id : String) (n : NetOutcome)
    (h : linesLen rs ≤ MaxChunkSize) :
    (run (initState id) (rs.map (fun r => Event.record r n))).sent = [] ∧
    (run (initState id) (rs.map (fun r => Event.record r n))).buff = rs := by
  have hrun := run_records n rs [] id 0 []
    (by rw [linesLen_nil]; omega)
  rw [show initState id
      = { buff := [], scanID := id, counter := 0, sent := [] } from rfl]
  rw [hrun]
  simp

/-- C7 witness: two records of 5 and 7 bytes, no timer and no
cancellation: no upload happens. -/
theorem C7_witness :
    (run (initState "") ([{ tag := 0, len := 5 }, { tag := 1, len := 7 }].map
        (fun r => Event.record r netFail))).sent = [] ∧
    (run (initState "") ([{ tag := 0, len := 5 }, { tag := 1, len := 7 }].map
        (fun r => Event.record r netFail))).buff
      = [{ tag := 0, len := 5 }, { tag := 1, len := 7 }] :=
  C7_lazy_batching [{ tag := 0, len := 5 }, { tag := 1, len := 7 }] "" netFail
    (by decide)

/-- C8: construction with missing (nil) credentials fails immediately
with the no-credentials error, for every environment, and no upload
writer is produced; when credentials are present, a no-credentials
failure can never arise — in particular never mid-stream. -/
theorem C8_missing_credentials_fail_construction :
    (∀ env : ConstructEnv, NewUploadWriter none env = .error .noCredentials) ∧
    (∀ (c : PDCPCredentials) (env : ConstructEnv),
      NewUploadWriter (some c) env ≠ .error .noCredentials) := by
  constructor
  · intro env; rfl
  · intro c env h
    simp only [NewUploadWriter] at h
    split_ifs at h <;> simp_all

/-- C9: `SetScanID` overwrites the scan id unconditionally: for every
current writer state, including one whose id was already adopted from a
server response, the result holds exactly the given id (and the same
credentials). -/
theorem C9_set_scan_id_overwrites_unconditionally :
    ∀ (u : UploadWriter) (id : String),
      SetScanID u id = { creds := u.creds, scanID := id } := by
  intro u id
  rfl

/-- C10: in `upload` the response body is read before the status code is
checked: a body-read failure yields the body-read error for every status
code (success or not), and the protocol error carrying status code and
URL arises exactly when the body was read successfully and the status is
not 200. -/
theorem C10_body_read_precedes_status_check :
    (∀ (scanID : String) (status : Nat) (url e : String)
        (parsed : Option UploadResponse),
      upload scanID (.response status url (.failure e) parsed)
        = .error (.bodyReadError e)) ∧
    (∀ (scanID : String) (status : Nat) (url bin : String)
        (parsed : Option UploadResponse), status ≠ 200 →
      upload scanID (.response status url (.success bin) parsed)
        = .error (.statusError status url)) := by
  constructor
  · intro scanID status url e parsed
    rfl
  · intro scanID status url bin parsed h
    simp [upload, h]
